import Mathlib

/-!
Verification of the two screen controllers of the my-plants repository
(src/add.tsx and src/edit.tsx): payload construction for the add and edit
submission handlers, the edit-screen dirty check, the error-handling and
loading-state behaviour of the handlers, and the delete-confirmation flow.

JavaScript runtime values that matter here (numbers that may be NaN, form
fields that may hold a string or a number, object keys that may be absent)
are modelled explicitly.
-/

/-- A JavaScript number as it occurs in this code: an integer or NaN.
The reminder-frequency fields only ever hold integer values or the NaN
produced by parseInt on non-numeric text. -/
inductive JSNum where
  | int : Int → JSNum
  | nan : JSNum
deriving DecidableEq, Repr

/-- Runtime value of the wateringReminderFrequency form field: the TypeScript
type says number, but the native text field stores strings, and the optional
field may be undefined. -/
inductive StrNum where
  | num : JSNum → StrNum
  | str : String → StrNum
  | undef : StrNum
deriving DecidableEq, Repr

/-- Decimal digits to a natural number. -/
def digitsToNat (cs : List Char) : Nat :=
  cs.foldl (fun a c => a * 10 + (c.toNat - 48)) 0

/-- JavaScript parseInt with default radix, on the decimal inputs the numeric
form field can produce: skip leading whitespace, read an optional sign, then
the longest prefix of decimal digits (trailing characters are ignored); NaN
when no digits are found. Hexadecimal prefixes are outside the inputs
exercised here. -/
def parseIntJS (s : String) : JSNum :=
  let cs := s.data.dropWhile Char.isWhitespace
  let signAndRest : Int × List Char :=
    match cs with
    | '-' :: rest => (-1, rest)
    | '+' :: rest => (1, rest)
    | _ => (1, cs)
  let ds := signAndRest.2.takeWhile Char.isDigit
  if ds.isEmpty then .nan else .int (signAndRest.1 * (digitsToNat ds : Int))

/-- JavaScript ToNumber on strings, restricted to the decimal integer
strings the numeric form field produces: whitespace-trimmed empty string is
0, an optional sign followed by digits only is that integer, anything else
is NaN (fractional, exponent and hexadecimal literals do not occur here). -/
def jsToNumber (s : String) : JSNum :=
  let cs := (s.data.dropWhile Char.isWhitespace).reverse.dropWhile Char.isWhitespace |>.reverse
  match cs with
  | [] => .int 0
  | _ =>
    let signAndRest : Int × List Char :=
      match cs with
      | '-' :: rest => (-1, rest)
      | '+' :: rest => (1, rest)
      | _ => (1, cs)
    if signAndRest.2 ≠ [] ∧ signAndRest.2.all Char.isDigit then
      .int (signAndRest.1 * (digitsToNat signAndRest.2 : Int))
    else .nan

/-- Strict numeric equality of JavaScript numbers: NaN compares unequal to
everything, including itself. -/
def jsEqNum : JSNum → JSNum → Bool
  | .int a, .int b => a == b
  | _, _ => false

/-- JavaScript loose equality between a number and a number-or-string-or-
undefined value: a string operand is converted with ToNumber; undefined is
loosely unequal to any number. -/
def looseEqNumVal (n : JSNum) : StrNum → Bool
  | .num m => jsEqNum n m
  | .str s => jsEqNum n (jsToNumber s)
  | .undef => false

/-- A locally picked image (expo ImageInfo); its contents are opaque to the
handlers, which only pass it to the external base64 encoder. -/
structure ImageInfo where
  uri : String
deriving DecidableEq, Repr

/-- Form values of the add screen (interface AddPlantForm in src/add.tsx).
Optional fields are Option; the frequency field is a StrNum because the
native text field stores strings. -/
structure AddPlantForm where
  name : String
  description : Option String
  wateringReminderFrequency : StrNum
deriving DecidableEq, Repr

/-- Form values of the edit screen (interface EditPlantForm in src/edit.tsx).
The image field is seeded from the cached record and used only for display. -/
structure EditPlantForm where
  name : String
  description : Option String
  image : Option String
  wateringReminderFrequency : StrNum
deriving DecidableEq, Repr

/-- Payload of addPlant as built in src/add.tsx. image is none for the
JavaScript null; the frequency field is none when the key is absent from the
object, some v when the key is present with value v. -/
structure AddPlantPayload where
  name : String
  description : Option String
  image : Option String
  wateringReminderFrequency : Option StrNum
deriving DecidableEq, Repr

/-- Payload of editPlant as built in src/edit.tsx, same conventions. -/
structure EditPlantPayload where
  id : String
  name : String
  description : Option String
  image : Option String
  wateringReminderFrequency : Option StrNum
deriving DecidableEq, Repr

/-- JavaScript String.prototype.trim on the whitespace that occurs here:
removes leading and trailing whitespace characters. -/
def jsTrim (s : String) : String :=
  ⟨(s.data.dropWhile Char.isWhitespace).reverse.dropWhile Char.isWhitespace |>.reverse⟩

/-- The string-to-number workaround shared by both handlers:
typeof v === "string" ? parseInt(v) : v. -/
def coerceFrequency : StrNum → StrNum
  | .str s => .num (parseIntJS s)
  | v => v

/-- The payload the add-screen onSubmit (src/add.tsx) passes to addPlant:
name and description are trimmed, the image is the encoded picked image or
null, and the frequency key is spread in only when the reminders checkbox is
checked. encode stands for the external base64EncodeImage. -/
def addPayload (encode : ImageInfo → String) (values : AddPlantForm)
    (image : Option ImageInfo) (isRemindersChecked : Bool) : AddPlantPayload :=
  { name := jsTrim values.name
    description := values.description.map jsTrim
    image := image.map encode
    wateringReminderFrequency :=
      if isRemindersChecked then some (coerceFrequency values.wateringReminderFrequency)
      else none }

/-- The payload the edit-screen handleEdit (src/edit.tsx) passes to
editPlant: name and description are passed through untrimmed, the image is
the encoded newly picked image or null (the stored URI is not consulted),
and the frequency key is spread in only when the reminders checkbox is
checked. -/
def editPayload (encode : ImageInfo → String) (plantId : String)
    (values : EditPlantForm) (image : Option ImageInfo)
    (isReminderChecked : Bool) : EditPlantPayload :=
  { id := plantId
    name := values.name
    description := values.description
    image := image.map encode
    wateringReminderFrequency :=
      if isReminderChecked then some (coerceFrequency values.wateringReminderFrequency)
      else none }

/-- The cached plant record read by the edit screen (external PlantRecord). -/
structure PlantRecord where
  id : String
  name : String
  description : Option String
  imgSrc : String
  wateringReminderFrequency : Int
  createdAt : String
deriving DecidableEq, Repr

/-- checkIfButtonShouldBeDisabled from src/edit.tsx: disabled when no record
is loaded, or when name and description match the record, no new image was
picked, the double-negation truthiness of the stored frequency equals the
checkbox state, and, when the checkbox is checked, the stored frequency is
loosely equal to the form frequency. -/
def checkIfButtonShouldBeDisabled (selectedPlant : Option PlantRecord)
    (isReminderChecked : Bool) (image : Option ImageInfo)
    (values : EditPlantForm) : Bool :=
  match selectedPlant with
  | none => true
  | some p =>
    (p.name == values.name) &&
    (p.description == values.description) &&
    image.isNone &&
    ((p.wateringReminderFrequency != 0) == isReminderChecked) &&
    (!isReminderChecked ||
      looseEqNumVal (.int p.wateringReminderFrequency) values.wateringReminderFrequency)

/-- Claim C1: on both screens the wateringReminderFrequency key is present in
the outgoing payload exactly when the reminders checkbox is checked; when
unchecked the key is absent altogether. -/
theorem reminderKey_iff_checked_C1 (encode : ImageInfo → String)
    (v : AddPlantForm) (ev : EditPlantForm) (img eimg : Option ImageInfo)
    (pid : String) (checked : Bool) :
    (addPayload encode v img checked).wateringReminderFrequency.isSome = checked ∧
    (editPayload encode pid ev eimg checked).wateringReminderFrequency.isSome = checked := by
  cases checked <;> simp [addPayload, editPayload]

/-- Claim C2: with a loaded record, the edit-screen submit control is
disabled exactly when the name is unchanged, the description is unchanged,
no new image was picked, the checkbox state equals whether the stored
frequency is non-zero, and, when checked, the stored frequency is loosely
equal to the form frequency. -/
theorem dirtyCheck_disabled_iff_C2 (p : PlantRecord) (checked : Bool)
    (img : Option ImageInfo) (v : EditPlantForm) :
    checkIfButtonShouldBeDisabled (some p) checked img v = true ↔
      (p.name = v.name ∧ p.description = v.description ∧ img = none ∧
       ((p.wateringReminderFrequency ≠ 0) ↔ checked = true) ∧
       (checked = true →
         looseEqNumVal (.int p.wateringReminderFrequency) v.wateringReminderFrequency = true)) := by
  cases checked <;>
    simp [checkIfButtonShouldBeDisabled, Option.isNone_iff_eq_none, bne_iff_ne, and_assoc]

/-- The concrete record of the spec examples: a Fern with a stored image URI
and stored frequency 0. -/
def fernRecord : PlantRecord :=
  { id := "p1"
    name := "Fern"
    description := some "Green"
    imgSrc := "https://example.com/fern.png"
    wateringReminderFrequency := 0
    createdAt := "2022-01-01" }

/-- The edit form seeded from fernRecord, unmodified. -/
def fernEditForm : EditPlantForm :=
  { name := "Fern"
    description := some "Green"
    image := some fernRecord.imgSrc
    wateringReminderFrequency := .num (.int 1) }

/-- Counterexample to claim C3: editing the Fern without picking a new image
produces a payload whose image field is null (none), not the stored image
URI kept in the record and in the form. -/
theorem editImage_C3_counterexample :
    (editPayload ImageInfo.uri fernRecord.id fernEditForm none false).image = none ∧
    fernRecord.imgSrc = "https://example.com/fern.png" ∧
    (editPayload ImageInfo.uri fernRecord.id fernEditForm none false).image ≠
      some fernRecord.imgSrc := by
  refine ⟨rfl, rfl, ?_⟩
  decide

/-- Claim C3 amended: for every edit submission in which no new image was
picked, the image field of the payload passed to editPlant is null; the
stored image URI is not placed in the payload. -/
theorem editImage_null_C3 (encode : ImageInfo → String) (pid : String)
    (v : EditPlantForm) (checked : Bool) :
    (editPayload encode pid v none checked).image = none := by
  rfl

/-- Claim C4: the add payload carries the trimmed name and description, and
in particular the name "  Fern  " is sent as "Fern". -/
theorem addTrims_C4 (encode : ImageInfo → String) (v : AddPlantForm)
    (img : Option ImageInfo) (checked : Bool) :
    (addPayload encode v img checked).name = jsTrim v.name ∧
    (addPayload encode v img checked).description = v.description.map jsTrim ∧
    (addPayload encode { v with name := "  Fern  " } img checked).name = "Fern" := by
  exact ⟨rfl, rfl, rfl⟩

/-- Claim C5: the edit payload carries the raw form name and description with
no trimming, so a name with surrounding whitespace, which trimming would
change, is sent with the whitespace retained. -/
theorem editNoTrim_C5 (encode : ImageInfo → String) (pid : String)
    (v : EditPlantForm) (img : Option ImageInfo) (checked : Bool) :
    (editPayload encode pid v img checked).name = v.name ∧
    (editPayload encode pid v img checked).description = v.description ∧
    (editPayload encode pid { v with name := "  Fern  " } img checked).name = "  Fern  " ∧
    jsTrim "  Fern  " ≠ "  Fern  " := by
  refine ⟨rfl, rfl, rfl, ?_⟩
  decide

/-- Claim C6: with the checkbox checked, a string-typed frequency value is
sent as the integer parseInt produces from it, and a number-typed value is
passed through unchanged, on both screens. -/
theorem frequencyCoercion_C6 (encode : ImageInfo → String) (v : AddPlantForm)
    (ev : EditPlantForm) (img eimg : Option ImageInfo) (pid s : String)
    (n : JSNum) :
    (addPayload encode { v with wateringReminderFrequency := .str s } img
        true).wateringReminderFrequency = some (.num (parseIntJS s)) ∧
    (addPayload encode { v with wateringReminderFrequency := .num n } img
        true).wateringReminderFrequency = some (.num n) ∧
    (editPayload encode pid { ev with wateringReminderFrequency := .str s } eimg
        true).wateringReminderFrequency = some (.num (parseIntJS s)) ∧
    (editPayload encode pid { ev with wateringReminderFrequency := .num n } eimg
        true).wateringReminderFrequency = some (.num n) := by
  exact ⟨rfl, rfl, rfl, rfl⟩

/-- Claim C10: when the checkbox is checked and the frequency field holds a
string parseInt cannot parse, the NaN result is still placed in the payload
on both screens; there is no failure branch. -/
theorem nanFrequency_C10 (encode : ImageInfo → String) (v : AddPlantForm)
    (ev : EditPlantForm) (img eimg : Option ImageInfo) (pid s : String)
    (h : parseIntJS s = .nan) :
    (addPayload encode { v with wateringReminderFrequency := .str s } img
        true).wateringReminderFrequency = some (.num .nan) ∧
    (editPayload encode pid { ev with wateringReminderFrequency := .str s } eimg
        true).wateringReminderFrequency = some (.num .nan) := by
  constructor <;> simp [addPayload, editPayload, coerceFrequency, h]

/-- Witness for C10 at the concrete non-numeric input "abc". -/
theorem nanFrequency_C10_witness :
    parseIntJS "abc" = .nan ∧
    (addPayload ImageInfo.uri
        { name := "Fern", description := none, wateringReminderFrequency := .str "abc" }
        none true).wateringReminderFrequency = some (.num .nan) ∧
    (editPayload ImageInfo.uri "p1"
        { name := "Fern", description := none, image := none,
          wateringReminderFrequency := .str "abc" }
        none true).wateringReminderFrequency = some (.num .nan) := by
  refine ⟨by decide, ?_⟩
  exact nanFrequency_C10 ImageInfo.uri
    { name := "Fern", description := none, wateringReminderFrequency := .str "abc" }
    { name := "Fern", description := none, image := none,
      wateringReminderFrequency := .str "abc" }
    none none "p1" "abc" (by decide)

/-- Error kinds the handlers can catch: the INVALID_FILE member of the
ApiErrors enum, or any other thrown value. -/
inductive ApiError where
  | INVALID_FILE : ApiError
  | other : String → ApiError
deriving DecidableEq, Repr

/-- A toast notification as passed to showToast: a message, an optional
description, and a type. Localised texts are represented by their i18n keys,
since localisation is an external collaborator. -/
structure ToastMsg where
  text1 : String
  text2 : Option String
  kind : String
deriving DecidableEq, Repr

/-- The file-type-specific error toast shown on INVALID_FILE. -/
def invalidFileToast : ToastMsg :=
  { text1 := "errors.invalidFileType", text2 := none, kind := "error" }

/-- The generic error toast: message plus description. -/
def genericErrorToast : ToastMsg :=
  { text1 := "errors.general", text2 := some "errors.generalDescription", kind := "error" }

/-- Observable state of a screen around one submission: the loading flag,
the toasts shown so far, whether navigation to home happened, whether the
form was reset, and how many times the remote service was called. -/
structure ScreenState where
  loading : Bool
  toasts : List ToastMsg
  navigatedHome : Bool
  formWasReset : Bool
  serviceCalls : Nat
deriving DecidableEq, Repr

/-- Screen state before a submission. -/
def initScreenState : ScreenState :=
  { loading := false, toasts := [], navigatedHome := false, formWasReset := false,
    serviceCalls := 0 }

/-- The add-screen onSubmit (src/add.tsx) as a state transformer over the
outcome of the awaited addPlant call: setLoading(true), one service call,
then either the success path (reset form, navigate home, success toast) or
the catch switch (INVALID_FILE toast or generic toast), and in every case
the finally block clears the loading flag. -/
def runAddSubmit (result : Except ApiError Unit) (s : ScreenState) : ScreenState :=
  let s1 := { s with loading := true }
  let s2 := { s1 with serviceCalls := s1.serviceCalls + 1 }
  let s3 : ScreenState :=
    match result with
    | .ok _ =>
      { s2 with formWasReset := true, navigatedHome := true,
                toasts := s2.toasts ++
                  [{ text1 := "pages.plants.add.success", text2 := none, kind := "success" }] }
    | .error .INVALID_FILE => { s2 with toasts := s2.toasts ++ [invalidFileToast] }
    | .error (.other _) => { s2 with toasts := s2.toasts ++ [genericErrorToast] }
  { s3 with loading := false }

/-- The edit-screen handleEdit (src/edit.tsx) as a state transformer over
the outcome of the awaited editPlant call: same shape as the add handler,
except that the form is not reset and the success toast key differs. -/
def runEditSubmit (result : Except ApiError Unit) (s : ScreenState) : ScreenState :=
  let s1 := { s with loading := true }
  let s2 := { s1 with serviceCalls := s1.serviceCalls + 1 }
  let s3 : ScreenState :=
    match result with
    | .ok _ =>
      { s2 with navigatedHome := true,
                toasts := s2.toasts ++
                  [{ text1 := "pages.plants.edit.success", text2 := none, kind := "success" }] }
    | .error .INVALID_FILE => { s2 with toasts := s2.toasts ++ [invalidFileToast] }
    | .error (.other _) => { s2 with toasts := s2.toasts ++ [genericErrorToast] }
  { s3 with loading := false }

/-- Claim C7: on both screens a failed submission with the INVALID_FILE
error shows exactly the file-type-specific toast and not the generic one,
any other error shows exactly the generic message-plus-description toast,
and every submission calls the remote service exactly once, so no error is
retried. -/
theorem errorMapping_C7 (msg : String) :
    (runAddSubmit (.error .INVALID_FILE) initScreenState).toasts = [invalidFileToast] ∧
    genericErrorToast ∉ (runAddSubmit (.error .INVALID_FILE) initScreenState).toasts ∧
    (runAddSubmit (.error (.other msg)) initScreenState).toasts = [genericErrorToast] ∧
    (runEditSubmit (.error .INVALID_FILE) initScreenState).toasts = [invalidFileToast] ∧
    genericErrorToast ∉ (runEditSubmit (.error .INVALID_FILE) initScreenState).toasts ∧
    (runEditSubmit (.error (.other msg)) initScreenState).toasts = [genericErrorToast] ∧
    (∀ r : Except ApiError Unit,
      (runAddSubmit r initScreenState).serviceCalls = 1 ∧
      (runEditSubmit r initScreenState).serviceCalls = 1) := by
  refine ⟨rfl, by decide, rfl, rfl, by decide, rfl, ?_⟩
  rintro (e | r)
  · rcases e with _ | m <;> exact ⟨rfl, rfl⟩
  · exact ⟨rfl, rfl⟩

/-- Claim C8: on both screens, whatever the outcome of the remote call, the
loading flag is false after the handler completes, from any starting state. -/
theorem loadingCleared_C8 (result : Except ApiError Unit) (s : ScreenState) :
    (runAddSubmit result s).loading = false ∧
    (runEditSubmit result s).loading = false :=
  ⟨rfl, rfl⟩

/-- User-visible events on the edit screen that touch the delete flow: the
press of the delete helper button, the modal being closed, and the user
accepting the confirmation modal (carrying the outcome the deletePlant call
would then have). -/
inductive EditEvent where
  | pressDeleteButton : EditEvent
  | closeModal : EditEvent
  | acceptDelete : Except ApiError Unit → EditEvent
deriving Repr

/-- Whether an event is an acceptance of the confirmation modal. -/
def isAcceptEvent : EditEvent → Bool
  | .acceptDelete _ => true
  | _ => false

/-- Delete-flow state of the edit screen: the showModal flag, the number of
deletePlant calls made, and the observable results of handleDelete. -/
structure DeleteFlowState where
  showModal : Bool
  deleteCalls : Nat
  navigatedHome : Bool
  toasts : List ToastMsg
deriving DecidableEq, Repr

/-- Delete-flow state at screen mount: useState(false) for showModal, no
calls made. -/
def initDeleteFlowState : DeleteFlowState :=
  { showModal := false, deleteCalls := 0, navigatedHome := false, toasts := [] }

/-- One edit-screen event. The helper button press runs setShowModal(true)
only (src/edit.tsx); handleDelete calls deletePlant and then either
navigates home with a success toast or shows the generic error toast
(src/edit.tsx). Modelled from the spec: DeletePlantConfirmationModal
(modals/DeletePlantConfirmation, not under src/) invokes the handleDelete it
receives only when the modal is shown and the user accepts it, so an accept
event while the modal is hidden does nothing. -/
def stepEditScreen (s : DeleteFlowState) (e : EditEvent) : DeleteFlowState :=
  match e with
  | .pressDeleteButton => { s with showModal := true }
  | .closeModal => { s with showModal := false }
  | .acceptDelete result =>
    if s.showModal then
      match result with
      | .ok _ =>
        { s with deleteCalls := s.deleteCalls + 1, navigatedHome := true,
                 toasts := s.toasts ++
                   [{ text1 := "pages.plants.edit.plantDeletedSuccess", text2 := none,
                      kind := "success" }] }
      | .error _ =>
        { s with deleteCalls := s.deleteCalls + 1,
                 toasts := s.toasts ++ [genericErrorToast] }
    else s

/-- A sequence of edit-screen events from a starting state. -/
def runEditEvents (s : DeleteFlowState) (es : List EditEvent) : DeleteFlowState :=
  es.foldl stepEditScreen s

/-- Events that are not modal acceptances never change the deletePlant call
count. -/
theorem stepEditScreen_deleteCalls_of_not_accept (s : DeleteFlowState)
    (e : EditEvent) (h : isAcceptEvent e = false) :
    (stepEditScreen s e).deleteCalls = s.deleteCalls := by
  cases e with
  | pressDeleteButton => rfl
  | closeModal => rfl
  | acceptDelete r => simp [isAcceptEvent] at h

/-- Over a trace without acceptance events the call count is unchanged. -/
theorem runEditEvents_deleteCalls_of_no_accept (es : List EditEvent) :
    ∀ s : DeleteFlowState, (∀ e ∈ es, isAcceptEvent e = false) →
      (runEditEvents s es).deleteCalls = s.deleteCalls := by
  induction es with
  | nil => intro s _; rfl
  | cons e es ih =>
    intro s h
    have he := h e (List.mem_cons_self e es)
    have hrest : ∀ x ∈ es, isAcceptEvent x = false := fun x hx =>
      h x (List.mem_cons_of_mem e hx)
    calc (runEditEvents (stepEditScreen s e) es).deleteCalls
        = (stepEditScreen s e).deleteCalls := ih (stepEditScreen s e) hrest
      _ = s.deleteCalls := stepEditScreen_deleteCalls_of_not_accept s e he

/-- Claim C9: pressing the delete helper button only opens the confirmation
modal and never calls deletePlant, and along any event sequence from screen
mount in which the user never accepts the confirmation modal, deletePlant is
never called. -/
theorem deleteNeedsConfirmation_C9 (s : DeleteFlowState) (es : List EditEvent)
    (h : ∀ e ∈ es, isAcceptEvent e = false) :
    ((stepEditScreen s .pressDeleteButton).deleteCalls = s.deleteCalls ∧
     (stepEditScreen s .pressDeleteButton).showModal = true) ∧
    (runEditEvents initDeleteFlowState es).deleteCalls = 0 :=
  ⟨⟨rfl, rfl⟩, runEditEvents_deleteCalls_of_no_accept es initDeleteFlowState h⟩

/-- Witness for C9 on the concrete trace press-then-close. -/
theorem deleteNeedsConfirmation_C9_witness :
    (∀ e ∈ [EditEvent.pressDeleteButton, EditEvent.closeModal],
      isAcceptEvent e = false) ∧
    ((stepEditScreen initDeleteFlowState .pressDeleteButton).deleteCalls =
        initDeleteFlowState.deleteCalls ∧
     (stepEditScreen initDeleteFlowState .pressDeleteButton).showModal = true) ∧
    (runEditEvents initDeleteFlowState
        [EditEvent.pressDeleteButton, EditEvent.closeModal]).deleteCalls = 0 := by
  refine ⟨by decide, ?_⟩
  exact deleteNeedsConfirmation_C9 initDeleteFlowState
    [EditEvent.pressDeleteButton, EditEvent.closeModal] (by decide)
